import Mathlib

/-!
Verification of the go-notifier transport abstraction layer.

This file shallowly embeds the Go sources of the repository
`shyim/go-notifier`: the dynamic `map[string]any` payloads, the option
builders of every provider (Slack, Telegram, Discord, Microsoft Teams,
Gotify), the pure part of each transport's `Send` pipeline (recipient
resolution, option overlay, empty-value filtering, API-method selection,
endpoint resolution), the dispatcher (`Notifier.Send` / `Notifier.SendAll`)
and the DSN parser (`NewDSN`, on top of a model of Go's `net/url.Parse`
restricted to inputs without percent-escapes and IPv6 bracket literals).

Go maps are modelled as association lists; Go's in-place mutation of the
builders' maps (shared by reference with `ToMap`) is modelled by explicit
state passing: every operation that mutates a map returns the new map, and
`Send` returns the updated message.  Go's unspecified map iteration order
is modelled as insertion order.
-/

set_option autoImplicit false

namespace GoNotifier

/-- Model of a Go `any` value as stored in the option maps of this
repository.  The dynamic Go type is part of the value, because the code
performs type assertions (`v.(string)`, `v.([]any)`, `v.(map[string]any)`,
`v.(map[string]string)`, `v.(map[string]float64)`) whose success depends on
the exact dynamic type.  `float64` values are only ever stored and copied,
never computed with, so they are carried as rationals. -/
inductive GoValue where
  /-- the untyped `nil` interface value -/
  | vnil : GoValue
  /-- a `string` -/
  | vstr : String → GoValue
  /-- an `int` or `int64` -/
  | vint : Int → GoValue
  /-- a `bool` -/
  | vbool : Bool → GoValue
  /-- a `float64`, carried opaquely -/
  | vfloat : Rat → GoValue
  /-- a `[]any` -/
  | vlist : List GoValue → GoValue
  /-- a `map[string]any` -/
  | vmap : List (String × GoValue) → GoValue
  /-- a `map[string]string` -/
  | vmapStr : List (String × String) → GoValue
  /-- a `map[string]float64` -/
  | vmapFloat : List (String × Rat) → GoValue
  /-- a `[]map[string]any` (the type of blocks, embeds, fields, sections) -/
  | vlistMap : List (List (String × GoValue)) → GoValue

/-- A Go `map[string]any`, modelled as an association list in insertion
order.  Lookup returns the first binding of a key. -/
abbrev GoMap := List (String × GoValue)

/-- Lookup in a Go map (`m[k]` with the `, ok` form). -/
def mget (m : GoMap) (k : String) : Option GoValue :=
  match m with
  | [] => none
  | (k2, v) :: t => if k2 = k then some v else mget t k

/-- Lookup in a Go map without the `, ok` form: a missing key of a
`map[string]any` reads as the `nil` interface value. -/
def mgetV (m : GoMap) (k : String) : GoValue :=
  (mget m k).getD .vnil

/-- Assignment `m[k] = v`: replaces the first binding of `k`, or appends. -/
def mset (m : GoMap) (k : String) (v : GoValue) : GoMap :=
  match m with
  | [] => [(k, v)]
  | (k2, v2) :: t => if k2 = k then (k, v) :: t else (k2, v2) :: mset t k v

/-- Deletion `delete(m, k)`. -/
def mdel (m : GoMap) (k : String) : GoMap :=
  match m with
  | [] => []
  | (k2, v) :: t => if k2 = k then mdel t k else (k2, v) :: mdel t k

/-- Key-presence test (`_, ok := m[k]`). -/
def mhas (m : GoMap) (k : String) : Bool :=
  (mget m k).isSome

/-- The keys of a Go map. -/
def mkeys (m : GoMap) : List String :=
  m.map (fun kv => kv.1)

/-- The `isEmptyValue` helper shared verbatim by the Slack, Discord,
Microsoft Teams and Gotify transports.  Note that the Go type switch
matches only the dynamic types `string`, `[]any`, `map[string]any` and
`nil`; values of any other dynamic type (including an empty
`map[string]string` or `[]map[string]any`) fall to `default: false`. -/
def isEmptyValue : GoValue → Bool
  | .vstr s => s == ""
  | .vlist l => l.isEmpty
  | .vmap m => m.isEmpty
  | .vnil => true
  | _ => false

/-- The filtering loop of the Slack, Discord, Microsoft Teams and Gotify
`Send` implementations: keep the entries that are not `isEmptyValue`. -/
def filterEmpty (m : GoMap) : GoMap :=
  m.filter (fun kv => ! isEmptyValue kv.2)

/-- Dynamic test for the `nil` interface value. -/
def isNilValue : GoValue → Bool
  | .vnil => true
  | _ => false

/-- The filtering loop of the Telegram `Send` implementation, which keeps
every entry whose value is not `nil` (`if v != nil`). -/
def filterNonNil (m : GoMap) : GoMap :=
  m.filter (fun kv => ! isNilValue kv.2)

/-! Option builders.  Each Go `Options` struct owns an internal
`map[string]any` plus a repeated-substructure collection; `ToMap` writes
the collection into the map when non-empty and returns the map itself (by
reference).  The mutation is modelled by returning the updated builder
alongside the map. -/

/-- Slack `Options` (package `slack`, options file): an internal map and a
list of blocks (each block already converted by `Block.ToMap`). -/
structure SlackOptions where
  options : GoMap
  blocks : List GoMap

/-- Slack `Options.ToMap`: writes `blocks` into the map when non-empty and
returns the (aliased) map together with the mutated builder. -/
def SlackOptions.toMapSt (o : SlackOptions) : GoMap × SlackOptions :=
  if o.blocks.isEmpty then (o.options, o)
  else
    let m := mset o.options "blocks" (.vlistMap o.blocks)
    (m, { options := m, blocks := o.blocks })

/-- Telegram `Options`: an internal map and an upload map
(`map[string]string` of field name to file path). -/
structure TelegramOptions where
  options : GoMap
  upload : List (String × String)

/-- Telegram `Options.ToMap`: writes `upload` into the map when non-empty. -/
def TelegramOptions.toMapSt (o : TelegramOptions) : GoMap × TelegramOptions :=
  if o.upload.isEmpty then (o.options, o)
  else
    let m := mset o.options "upload" (.vmapStr o.upload)
    (m, { options := m, upload := o.upload })

/-- Discord `Options`: an internal map and a list of embeds. -/
structure DiscordOptions where
  options : GoMap
  embeds : List GoMap

/-- Discord `Options.ToMap`: writes `embeds` into the map when non-empty. -/
def DiscordOptions.toMapSt (o : DiscordOptions) : GoMap × DiscordOptions :=
  if o.embeds.isEmpty then (o.options, o)
  else
    let m := mset o.options "embeds" (.vlistMap o.embeds)
    (m, { options := m, embeds := o.embeds })

/-- Microsoft Teams `Options`: an internal map and a list of potential
actions. -/
structure TeamsOptions where
  options : GoMap
  potentialActions : List GoMap

/-- Teams `Options.ToMap`: writes `potentialAction` into the map when
non-empty. -/
def TeamsOptions.toMapSt (o : TeamsOptions) : GoMap × TeamsOptions :=
  if o.potentialActions.isEmpty then (o.options, o)
  else
    let m := mset o.options "potentialAction" (.vlistMap o.potentialActions)
    (m, { options := m, potentialActions := o.potentialActions })

/-- Gotify `Options`: an internal map and an extras map (`map[string]any`). -/
structure GotifyOptions where
  options : GoMap
  extras : GoMap

/-- Gotify `Options.ToMap`: writes `extras` into the map when non-empty. -/
def GotifyOptions.toMapSt (o : GotifyOptions) : GoMap × GotifyOptions :=
  if o.extras.isEmpty then (o.options, o)
  else
    let m := mset o.options "extras" (.vmap o.extras)
    (m, { options := m, extras := o.extras })

/-- Shared shape of `Options.GetRecipientId` for Slack, Discord, Teams and
Gotify: the type assertion `options["recipient_id"].(string)` succeeds only
for a string value (an empty string is returned as-is). -/
def recipientOfMap (m : GoMap) : String :=
  match mget m "recipient_id" with
  | some (.vstr s) => s
  | _ => ""

/-- Telegram `Options.GetRecipientId`: `recipient_id` first, then the
backward-compatible `chat_id`. -/
def TelegramOptions.getRecipientId (o : TelegramOptions) : String :=
  match mget o.options "recipient_id" with
  | some (.vstr s) => s
  | _ =>
    match mget o.options "chat_id" with
    | some (.vstr s) => s
    | _ => ""

/-- The per-provider `Options` variants a message can carry (the concrete
implementations of `MessageOptionsInterface` in this repository). -/
inductive MsgOptions where
  | slack : SlackOptions → MsgOptions
  | telegram : TelegramOptions → MsgOptions
  | discord : DiscordOptions → MsgOptions
  | teams : TeamsOptions → MsgOptions
  | gotify : GotifyOptions → MsgOptions

/-- Dispatch of `MessageOptionsInterface.GetRecipientId`. -/
def MsgOptions.getRecipientId : MsgOptions → String
  | .slack o => recipientOfMap o.options
  | .telegram o => o.getRecipientId
  | .discord o => recipientOfMap o.options
  | .teams o => recipientOfMap o.options
  | .gotify o => recipientOfMap o.options

/-- `ChatMessage` (package `notifier`): subject, a map from transport key
to that transport's `Options`, and an optional explicit target transport
name.  The Go options map has unspecified iteration order; it is modelled
as an association list in insertion order. -/
structure ChatMessage where
  subject : String
  options : List (String × MsgOptions)
  transport : String

/-- First non-empty recipient id over the option sets, in list order
(model of the `for _, opt := range m.options` loop of
`ChatMessage.GetRecipientId`; Go iterates the map in unspecified order). -/
def firstRecipient : List (String × MsgOptions) → String
  | [] => ""
  | (_, o) :: t =>
    let id := o.getRecipientId
    if id = "" then firstRecipient t else id

/-- `ChatMessage.GetRecipientId`: checks all option sets for a recipient. -/
def ChatMessage.getRecipientId (m : ChatMessage) : String :=
  firstRecipient m.options

/-- `ChatMessage.GetOptions`: map lookup by transport key (a missing key
yields the nil interface, modelled as `none`). -/
def ChatMessage.getOptions (m : ChatMessage) (k : String) : Option MsgOptions :=
  match m.options.find? (fun kv => kv.1 == k) with
  | some kv => some kv.2
  | none => none

/-- Replace the options object stored under key `k` (used to model the
in-place mutation of an aliased builder during `Send`). -/
def ChatMessage.setOptions (m : ChatMessage) (k : String) (o : MsgOptions) :
    ChatMessage :=
  { m with
    options := m.options.map (fun kv => if kv.1 = k then (kv.1, o) else kv) }

/-! Endpoint resolution. -/

/-- `AbstractTransport.GetEndpoint`: substitute `localhost` for an empty
host, then append `:port` when the port is positive (`t.port > 0`). -/
def abstractGetEndpoint (host : String) (port : Int) : String :=
  let h := if host = "" then "localhost" else host
  if port > 0 then h ++ ":" ++ toString port else h

/-- Shared shape of the per-provider `getEndpoint`: fall back to the
provider default when the combined endpoint is `""` or `"localhost"`. -/
def providerEndpoint (dflt : String) (host : String) (port : Int) : String :=
  let e := abstractGetEndpoint host port
  if e = "" ∨ e = "localhost" then dflt else e

/-- Slack `Transport.getEndpoint` (default `slack.com`). -/
def slackGetEndpoint (host : String) (port : Int) : String :=
  providerEndpoint "slack.com" host port

/-- Telegram `Transport.getEndpoint` (default `api.telegram.org`). -/
def telegramGetEndpoint (host : String) (port : Int) : String :=
  providerEndpoint "api.telegram.org" host port

/-- Discord `Transport.getEndpoint` (default `discord.com`). -/
def discordGetEndpoint (host : String) (port : Int) : String :=
  providerEndpoint "discord.com" host port

/-- Microsoft Teams `Transport.getEndpoint` (default `webhook.office.com`). -/
def teamsGetEndpoint (host : String) (port : Int) : String :=
  providerEndpoint "webhook.office.com" host port

/-- Gotify `Transport.getEndpoint` (placeholder default
`gotify-server-required.com`). -/
def gotifyGetEndpoint (host : String) (port : Int) : String :=
  providerEndpoint "gotify-server-required.com" host port

/-- The endpoint the Teams `Send` actually posts to: the configured webhook
URL when non-empty, else the resolved endpoint. -/
def teamsRequestEndpoint (webhookURL host : String) (port : Int) : String :=
  if webhookURL = "" then teamsGetEndpoint host port else webhookURL

/-! Transport configurations (the pure fields of the transport structs). -/

/-- Slack `Transport`: access token, default channel, and the host/port
carried by the embedded `AbstractTransport`. -/
structure SlackTransport where
  accessToken : String
  channel : String
  host : String
  port : Int

/-- Telegram `Transport`. -/
structure TelegramTransport where
  token : String
  chatChannel : String
  host : String
  port : Int

/-- Discord `Transport`. -/
structure DiscordTransport where
  webhookID : String
  token : String
  host : String
  port : Int

/-- Microsoft Teams `Transport`. -/
structure TeamsTransport where
  webhookURL : String
  host : String
  port : Int

/-- Gotify `Transport`. -/
structure GotifyTransport where
  token : String
  host : String
  port : Int

/-! Slack `Transport.Send` (pure part, up to the JSON payload). -/

/-- Slack recipient resolution: the message-level recipient, else the
transport's configured channel. -/
def slackChatID (t : SlackTransport) (m : ChatMessage) : String :=
  let chatID := m.getRecipientId
  if chatID = "" ∧ t.channel ≠ "" then t.channel else chatID

/-- Slack API-method selection, exactly as written in `Send`: start from
`chat.postMessage`, overwrite with `chat.update` when `ts` is present, then
overwrite with `chat.scheduleMessage` when `post_at` is present. -/
def slackApiMethod (options : GoMap) : String :=
  let m0 := "chat.postMessage"
  let m1 := if mhas options "ts" then "chat.update" else m0
  let m2 := if mhas options "post_at" then "chat.scheduleMessage" else m1
  m2

/-- Result of the pure part of Slack's `Send`: the selected API method, the
options map after the `channel`/`text` overlay, the filtered JSON payload,
and the message after the in-place mutation of its aliased Slack builder. -/
structure SlackSendResult where
  apiMethod : String
  assembled : GoMap
  payload : GoMap
  msg : ChatMessage

/-- Pure part of Slack `Transport.Send`: type-assert the message's Slack
options, overlay `channel` and `text`, select the API method, filter empty
values.  The builder's map is aliased by `ToMap`, so the overlay mutates
the message's options in place (modelled by `setOptions`). -/
def slackSendState (t : SlackTransport) (m : ChatMessage) : SlackSendResult :=
  let chatID := slackChatID t m
  match m.getOptions "slack" with
  | some (.slack o) =>
    let s := o.toMapSt
    let a1 := mset s.1 "channel" (.vstr chatID)
    let a2 := mset a1 "text" (.vstr m.subject)
    { apiMethod := slackApiMethod a2
      assembled := a2
      payload := filterEmpty a2
      msg := m.setOptions "slack" (.slack { options := a2, blocks := s.2.blocks }) }
  | _ =>
    let a1 := mset [] "channel" (.vstr chatID)
    let a2 := mset a1 "text" (.vstr m.subject)
    { apiMethod := slackApiMethod a2
      assembled := a2
      payload := filterEmpty a2
      msg := m }

/-! Discord `Transport.Send` (pure part). -/

/-- Result of the pure part of Discord's `Send`. -/
structure DiscordSendResult where
  assembled : GoMap
  payload : GoMap
  msg : ChatMessage

/-- Pure part of Discord `Transport.Send`: overlay `content` with the
subject, filter empty values. -/
def discordSendState (m : ChatMessage) : DiscordSendResult :=
  match m.getOptions "discord" with
  | some (.discord o) =>
    let s := o.toMapSt
    let a1 := mset s.1 "content" (.vstr m.subject)
    { assembled := a1
      payload := filterEmpty a1
      msg := m.setOptions "discord" (.discord { options := a1, embeds := s.2.embeds }) }
  | _ =>
    let a1 := mset [] "content" (.vstr m.subject)
    { assembled := a1, payload := filterEmpty a1, msg := m }

/-! Microsoft Teams `Transport.Send` (pure part). -/

/-- Result of the pure part of the Teams `Send`. -/
structure TeamsSendResult where
  assembled : GoMap
  payload : GoMap
  msg : ChatMessage

/-- The Teams overlay: simple `text` when no `title` is set, else a
MessageCard `sections` entry built from the subject and the (possibly nil)
`subtitle` and `text` option values, which are then deleted. -/
def teamsOverlay (subject : String) (base : GoMap) : GoMap :=
  if mhas base "title" then
    let sections : List GoMap :=
      [[("activityTitle", .vstr subject),
        ("activitySubtitle", mgetV base "subtitle"),
        ("activityText", mgetV base "text")]]
    mset (mdel (mdel base "subtitle") "text") "sections" (.vlistMap sections)
  else
    mset base "text" (.vstr subject)

/-- Pure part of the Teams `Transport.Send`. -/
def teamsSendState (m : ChatMessage) : TeamsSendResult :=
  match m.getOptions "microsoftteams" with
  | some (.teams o) =>
    let s := o.toMapSt
    let a1 := teamsOverlay m.subject s.1
    { assembled := a1
      payload := filterEmpty a1
      msg := m.setOptions "microsoftteams"
        (.teams { options := a1, potentialActions := s.2.potentialActions }) }
  | _ =>
    let a1 := teamsOverlay m.subject []
    { assembled := a1, payload := filterEmpty a1, msg := m }

/-! Gotify `Transport.Send` (pure part). -/

/-- Result of the pure part of the Gotify `Send`. -/
structure GotifySendResult where
  assembled : GoMap
  payload : GoMap
  msg : ChatMessage

/-- Pure part of the Gotify `Transport.Send`: default the `title`, overlay
`message` with the subject, filter empty values. -/
def gotifySendState (m : ChatMessage) : GotifySendResult :=
  match m.getOptions "gotify" with
  | some (.gotify o) =>
    let s := o.toMapSt
    let a1 := if mhas s.1 "title" then s.1 else mset s.1 "title" (.vstr "Notification")
    let a2 := mset a1 "message" (.vstr m.subject)
    { assembled := a2
      payload := filterEmpty a2
      msg := m.setOptions "gotify" (.gotify { options := a2, extras := s.2.extras }) }
  | _ =>
    let a1 := mset [] "title" (.vstr "Notification")
    let a2 := mset a1 "message" (.vstr m.subject)
    { assembled := a2, payload := filterEmpty a2, msg := m }

/-! Telegram `Transport.Send` (pure part). -/

/-- The special characters the Telegram transport escapes for MarkdownV2. -/
def tgSpecialChars : List Char :=
  ['_', '*', '[', ']', '(', ')', '~', '>', '#', '+', '-', '=', '|',
   '\x7b', '\x7d', '.', '!']

/-- `escapeMarkdownV2`: Go applies one `strings.ReplaceAll` pass per
special character; since the inserted backslash is not itself special,
this equals prefixing each special character once. -/
def escapeMarkdownV2 (s : String) : String :=
  String.mk (s.data.foldr
    (fun c acc => if tgSpecialChars.contains c then '\\' :: c :: acc else c :: acc)
    [])

/-- Telegram `Transport.getPath`: the if-chain selecting the Bot API
method from the present option keys. -/
def telegramGetPath (options : GoMap) : String :=
  if mhas options "message_id" then "editMessageText"
  else if mhas options "callback_query_id" then "answerCallbackQuery"
  else if mhas options "photo" then "sendPhoto"
  else if mhas options "location" then "sendLocation"
  else if mhas options "audio" then "sendAudio"
  else if mhas options "document" then "sendDocument"
  else if mhas options "video" then "sendVideo"
  else if mhas options "animation" then "sendAnimation"
  else if mhas options "venue" then "sendVenue"
  else if mhas options "contact" then "sendContact"
  else if mhas options "sticker" then "sendSticker"
  else "sendMessage"

/-- Telegram `Transport.getTextOption`: the option key under which the
message text is written (`""` means the text is dropped). -/
def telegramGetTextOption (options : GoMap) : String :=
  if mhas options "photo" then "caption"
  else if mhas options "audio" then "caption"
  else if mhas options "document" then "caption"
  else if mhas options "video" then "caption"
  else if mhas options "animation" then "caption"
  else if mhas options "sticker" then ""
  else if mhas options "location" then ""
  else if mhas options "venue" then ""
  else if mhas options "contact" then ""
  else "text"

/-- Lookup in a `map[string]float64` (a missing key reads as `0.0`). -/
def flookup (m : List (String × Rat)) (k : String) : Rat :=
  match m.find? (fun kv => kv.1 == k) with
  | some kv => kv.2
  | none => 0

/-- Lookup in a `map[string]string` (a missing key reads as `""`). -/
def slookup (m : List (String × String)) (k : String) : String :=
  match m.find? (fun kv => kv.1 == k) with
  | some kv => kv.2
  | none => ""

/-- The Telegram post-filter extraction of `location` coordinates to
top-level fields (only when the value has dynamic type `map[string]float64`). -/
def tgExtractLocation (m : GoMap) : GoMap :=
  match mget m "location" with
  | some (.vmapFloat loc) =>
    mdel
      (mset (mset m "latitude" (.vfloat (flookup loc "latitude")))
        "longitude" (.vfloat (flookup loc "longitude")))
      "location"
  | _ => m

/-- The Telegram post-filter extraction of `venue` fields to top level
(only when the value has dynamic type `map[string]any`). -/
def tgExtractVenue (m : GoMap) : GoMap :=
  match mget m "venue" with
  | some (.vmap ven) =>
    mdel
      (mset
        (mset
          (mset (mset m "latitude" (mgetV ven "latitude"))
            "longitude" (mgetV ven "longitude"))
          "title" (mgetV ven "title"))
        "address" (mgetV ven "address"))
      "venue"
  | _ => m

/-- The Telegram post-filter extraction of `contact` fields to top level
(only when the value has dynamic type `map[string]string`); `last_name` is
copied only when present in the contact map. -/
def tgExtractContact (m : GoMap) : GoMap :=
  match mget m "contact" with
  | some (.vmapStr c) =>
    let m1 := mset (mset m "phone_number" (.vstr (slookup c "phone_number")))
      "first_name" (.vstr (slookup c "first_name"))
    let m2 :=
      match c.find? (fun kv => kv.1 == "last_name") with
      | some kv => mset m1 "last_name" (.vstr kv.2)
      | none => m1
    mdel m2 "contact"
  | _ => m

/-- Result of the pure part of the Telegram `Send`: the selected Bot API
path, the map `getPath` was evaluated on, the JSON body (`none` on the
multipart upload branch, whose wire encoding is not modelled), and the
message after the in-place mutations of its aliased Telegram builder. -/
structure TelegramSendResult where
  path : String
  prePath : GoMap
  assembled : GoMap
  body : Option GoMap
  msg : ChatMessage

/-- Telegram recipient resolution (`chatID` in `Send`). -/
def telegramChatID (t : TelegramTransport) (m : ChatMessage) : String :=
  let c := m.getRecipientId
  if c = "" ∧ t.chatChannel ≠ "" then t.chatChannel else c

/-- The builder map obtained from the message's Telegram options (empty
when the message carries none), together with the mutated builder. -/
def telegramBase (m : ChatMessage) : GoMap × Option TelegramOptions :=
  match m.getOptions "telegram" with
  | some (.telegram o) =>
    let s := o.toMapSt
    (s.1, some s.2)
  | _ => ([], none)

/-- Whether `Send` forces MarkdownV2: the `parse_mode` option is absent,
not a string, or equal to `MarkdownV2`. -/
def telegramUsesMdV2 (m2 : GoMap) : Bool :=
  match mget m2 "parse_mode" with
  | some (.vstr s) => s == "MarkdownV2"
  | some _ => true
  | none => true

/-- The options map after the `chat_id` overlay and the `recipient_id`
deletion. -/
def telegramM2 (t : TelegramTransport) (m : ChatMessage) : GoMap :=
  mdel (mset (telegramBase m).1 "chat_id" (.vstr (telegramChatID t m)))
    "recipient_id"

/-- The options map right before the upload check (after the `parse_mode`
defaulting). -/
def telegramPreUpload (t : TelegramTransport) (m : ChatMessage) : GoMap :=
  if telegramUsesMdV2 (telegramM2 t m) then
    mset (telegramM2 t m) "parse_mode" (.vstr "MarkdownV2")
  else telegramM2 t m

/-- The (possibly escaped) message text. -/
def telegramText (t : TelegramTransport) (m : ChatMessage) : String :=
  if telegramUsesMdV2 (telegramM2 t m) then escapeMarkdownV2 m.subject
  else m.subject

/-- The message after `Send`'s in-place mutations of the aliased builder
map (no-op when the message carried no Telegram options). -/
def telegramRemsg (m : ChatMessage) (final : GoMap) : ChatMessage :=
  match (telegramBase m).2 with
  | some o1 =>
    m.setOptions "telegram" (.telegram { options := final, upload := o1.upload })
  | none => m

/-- The options map after the text insertion on the JSON branch
(`options[textOption] = text` when the text option is non-empty). -/
def telegramM4 (t : TelegramTransport) (m : ChatMessage) : GoMap :=
  if telegramGetTextOption (telegramPreUpload t m) ≠ "" then
    mset (telegramPreUpload t m) (telegramGetTextOption (telegramPreUpload t m))
      (.vstr (telegramText t m))
  else telegramPreUpload t m

/-- Pure part of Telegram `Transport.Send`: resolve `chat_id`, delete
`recipient_id`, default `parse_mode` to MarkdownV2 (escaping the subject),
then either take the multipart upload branch (when `upload` has dynamic
type `map[string]string`) or build the JSON body: select the path, insert
the text, filter out `nil` values, and extract location/venue/contact
fields to top level.  The `assembled` field records the builder map after
all in-place mutations. -/
def telegramSendState (t : TelegramTransport) (m : ChatMessage) :
    TelegramSendResult :=
  match mget (telegramPreUpload t m) "upload" with
  | some (.vmapStr _) =>
    { path := telegramGetPath (mdel (telegramPreUpload t m) "upload")
      prePath := mdel (telegramPreUpload t m) "upload"
      assembled := mdel (telegramPreUpload t m) "upload"
      body := none
      msg := telegramRemsg m (mdel (telegramPreUpload t m) "upload") }
  | _ =>
    { path := telegramGetPath (telegramPreUpload t m)
      prePath := telegramPreUpload t m
      assembled := telegramM4 t m
      body := some (tgExtractContact (tgExtractVenue (tgExtractLocation
        (filterNonNil (telegramM4 t m)))))
      msg := telegramRemsg m (telegramM4 t m) }

/-! Dispatcher (`Notifier`).  A transport is modelled through its
interface: a name (`String()`), a support predicate and a send function
whose single call per message is deterministic.  The list of names of the
transports whose `Send` was actually invoked is returned alongside the Go
results, modelling the side effect of calling `Send`. -/

/-- Model of a successfully sent message (`SentMessage` without the
back-reference to the original message). -/
structure SentModel where
  transportName : String
  messageID : String
  info : GoMap

/-- Model of a value of `TransportInterface` as the dispatcher sees it. -/
structure TransportM where
  name : String
  supports : ChatMessage → Bool
  send : ChatMessage → Except String SentModel

/-- Go's `%q` formatting of a plain (escape-free) string. -/
def quoteGo (s : String) : String :=
  "\"" ++ s ++ "\""

/-- `Notifier.Send`: empty-list guard, then either route by the explicit
target transport name or pick the first supporting transport.  The second
component lists the transports whose `Send` was invoked. -/
def notifierSend (ts : List TransportM) (m : ChatMessage) :
    Except String SentModel × List String :=
  if ts.isEmpty then (.error "no transports configured", [])
  else if m.transport ≠ "" then
    match ts.find? (fun t => t.name == m.transport && t.supports m) with
    | some t => (t.send m, [t.name])
    | none =>
      (.error ("transport " ++ quoteGo m.transport ++
        " not found or does not support message"), [])
  else
    match ts.find? (fun t => t.supports m) with
    | some t => (t.send m, [t.name])
    | none => (.error "no transport supports this message", [])

/-- The loop of `Notifier.SendAll`: for each supporting transport in order,
call `Send`; stop at the first error, returning the results collected so
far alongside it.  Components: results, error, invoked transport names. -/
def notifierSendAllLoop (ts : List TransportM) (m : ChatMessage) :
    List SentModel × Option String × List String :=
  match ts with
  | [] => ([], none, [])
  | t :: rest =>
    if t.supports m then
      match t.send m with
      | .error e => ([], some e, [t.name])
      | .ok s =>
        let r := notifierSendAllLoop rest m
        (s :: r.1, r.2.1, t.name :: r.2.2)
    else notifierSendAllLoop rest m

/-- `Notifier.SendAll`: empty-list guard, the loop, then the
no-supporting-transport error when no result was collected and no
transport errored. -/
def notifierSendAll (ts : List TransportM) (m : ChatMessage) :
    List SentModel × Option String × List String :=
  if ts.isEmpty then ([], some "no transports configured", [])
  else
    let r := notifierSendAllLoop ts m
    match r.2.1 with
    | some e => (r.1, some e, r.2.2)
    | none =>
      if r.1.isEmpty then ([], some "no transport supports this message", r.2.2)
      else (r.1, none, r.2.2)

/-- Bool test for a failed send. -/
def sendErrs (t : TransportM) (m : ChatMessage) : Bool :=
  match t.send m with
  | .error _ => true
  | .ok _ => false

/-- The error of a failed send. -/
def errOf (r : Except String SentModel) : Option String :=
  match r with
  | .error e => some e
  | .ok _ => none

/-- Specification-side description of `SendAll`, following the spec's
words: restrict to the supporting transports in construction order; the
invoked ones are the successful prefix plus the first failing one (all of
them when none fails); the outcome is the first error together with the
results collected before it, or all results, or the
no-supporting-transport error when zero transports matched. -/
def claimSendAll (ts : List TransportM) (m : ChatMessage) :
    List SentModel × Option String × List String :=
  let sup := ts.filter (fun t => t.supports m)
  let pre := sup.takeWhile (fun t => ! sendErrs t m)
  let results := pre.filterMap (fun t => (t.send m).toOption)
  match sup.dropWhile (fun t => ! sendErrs t m) with
  | [] =>
    if results.isEmpty then
      ([], some "no transport supports this message", sup.map (fun t => t.name))
    else (results, none, sup.map (fun t => t.name))
  | tf :: _ =>
    (results, errOf (tf.send m), (pre ++ [tf]).map (fun t => t.name))

/-! Builder-call sequences, for the collection-size invariants.  Each
constructor is one chainable setter call with its arguments (block, embed
and accessory arguments are carried as the maps their `ToMap` produces). -/

/-- One Slack `Options` builder call. -/
inductive SlackOp where
  | recipient : String → SlackOp
  | asUser : Bool → SlackOp
  | postAt : Int → SlackOp
  | block : GoMap → SlackOp
  | iconEmoji : String → SlackOp
  | iconUrl : String → SlackOp
  | linkNames : Bool → SlackOp
  | mrkdwn : Bool → SlackOp
  | parse : String → SlackOp
  | unfurlLinks : Bool → SlackOp
  | unfurlMedia : Bool → SlackOp
  | username : String → SlackOp
  | threadTs : String → SlackOp

/-- Apply one Slack builder call; `Block` silently drops the block once 50
blocks are stored (`if len(o.blocks) >= 50 { return o }`). -/
def SlackOptions.applyOp (o : SlackOptions) : SlackOp → SlackOptions
  | .recipient id => { o with options := mset o.options "recipient_id" (.vstr id) }
  | .asUser b => { o with options := mset o.options "as_user" (.vbool b) }
  | .postAt ts => { o with options := mset o.options "post_at" (.vint ts) }
  | .block b =>
    if o.blocks.length ≥ 50 then o else { o with blocks := o.blocks ++ [b] }
  | .iconEmoji e => { o with options := mset o.options "icon_emoji" (.vstr e) }
  | .iconUrl u => { o with options := mset o.options "icon_url" (.vstr u) }
  | .linkNames b => { o with options := mset o.options "link_names" (.vbool b) }
  | .mrkdwn b => { o with options := mset o.options "mrkdwn" (.vbool b) }
  | .parse p => { o with options := mset o.options "parse" (.vstr p) }
  | .unfurlLinks b => { o with options := mset o.options "unfurl_links" (.vbool b) }
  | .unfurlMedia b => { o with options := mset o.options "unfurl_media" (.vbool b) }
  | .username u => { o with options := mset o.options "username" (.vstr u) }
  | .threadTs s => { o with options := mset o.options "thread_ts" (.vstr s) }

/-- Run a sequence of Slack builder calls from `NewOptions()`. -/
def slackBuild (ops : List SlackOp) : SlackOptions :=
  ops.foldl SlackOptions.applyOp { options := [], blocks := [] }

/-- One Discord `Options` builder call. -/
inductive DiscordOp where
  | recipient : String → DiscordOp
  | username : String → DiscordOp
  | avatarUrl : String → DiscordOp
  | tts : Bool → DiscordOp
  | addEmbed : GoMap → DiscordOp

/-- Apply one Discord builder call; `AddEmbed` silently drops the embed
once 10 embeds are stored (`if len(o.embeds) >= 10 { return o }`). -/
def DiscordOptions.applyOp (o : DiscordOptions) : DiscordOp → DiscordOptions
  | .recipient id => { o with options := mset o.options "recipient_id" (.vstr id) }
  | .username u => { o with options := mset o.options "username" (.vstr u) }
  | .avatarUrl u => { o with options := mset o.options "avatar_url" (.vstr u) }
  | .tts b => { o with options := mset o.options "tts" (.vbool b) }
  | .addEmbed e =>
    if o.embeds.length ≥ 10 then o else { o with embeds := o.embeds ++ [e] }

/-- Run a sequence of Discord builder calls from `NewOptions()`. -/
def discordBuild (ops : List DiscordOp) : DiscordOptions :=
  ops.foldl DiscordOptions.applyOp { options := [], embeds := [] }

/-- The state of a Discord `Embed` builder. -/
structure EmbedState where
  options : GoMap
  fields : List GoMap

/-- One Discord `Embed` builder call (`Timestamp` carries the already
RFC3339-formatted string; optional trailing arguments are `Option`s). -/
inductive EmbedOp where
  | title : String → EmbedOp
  | description : String → EmbedOp
  | url : String → EmbedOp
  | timestamp : String → EmbedOp
  | color : Int → EmbedOp
  | footer : String → Option String → EmbedOp
  | thumbnail : String → EmbedOp
  | image : String → EmbedOp
  | author : String → Option String → EmbedOp
  | addField : String → String → Option Bool → EmbedOp

/-- Whether a builder call is `AddField`. -/
def EmbedOp.isAddField : EmbedOp → Bool
  | .addField _ _ _ => true
  | _ => false

/-- Apply one `Embed` builder call.  `AddField` appends unconditionally:
the Go implementation has no size guard. -/
def EmbedState.applyOp (e : EmbedState) : EmbedOp → EmbedState
  | .title s => { e with options := mset e.options "title" (.vstr s) }
  | .description s => { e with options := mset e.options "description" (.vstr s) }
  | .url s => { e with options := mset e.options "url" (.vstr s) }
  | .timestamp s => { e with options := mset e.options "timestamp" (.vstr s) }
  | .color n => { e with options := mset e.options "color" (.vint n) }
  | .footer s icon =>
    let f : GoMap :=
      match icon with
      | some u => [("text", .vstr s), ("icon_url", .vstr u)]
      | none => [("text", .vstr s)]
    { e with options := mset e.options "footer" (.vmap f) }
  | .thumbnail u =>
    { e with options := mset e.options "thumbnail" (.vmap [("url", .vstr u)]) }
  | .image u =>
    { e with options := mset e.options "image" (.vmap [("url", .vstr u)]) }
  | .author s url =>
    let a : GoMap :=
      match url with
      | some u => [("name", .vstr s), ("url", .vstr u)]
      | none => [("name", .vstr s)]
    { e with options := mset e.options "author" (.vmap a) }
  | .addField name value inline =>
    let f : GoMap :=
      match inline with
      | some b => [("name", .vstr name), ("value", .vstr value), ("inline", .vbool b)]
      | none => [("name", .vstr name), ("value", .vstr value)]
    { e with fields := e.fields ++ [f] }

/-- Run a sequence of `Embed` builder calls from `NewEmbed()`. -/
def embedBuild (ops : List EmbedOp) : EmbedState :=
  ops.foldl EmbedState.applyOp { options := [], fields := [] }

/-- Discord `Embed.ToMap`: writes `fields` into the map when non-empty. -/
def EmbedState.toMapSt (e : EmbedState) : GoMap × EmbedState :=
  if e.fields.isEmpty then (e.options, e)
  else
    let m := mset e.options "fields" (.vlistMap e.fields)
    (m, { options := m, fields := e.fields })

/-- The state of a Slack `SectionBlock` builder. -/
structure SectionBlockState where
  options : GoMap
  fields : List GoMap

/-- One Slack `SectionBlock` builder call. -/
inductive SectionOp where
  | text : String → Option Bool → SectionOp
  | field : String → Option Bool → SectionOp
  | accessory : GoMap → SectionOp

/-- Apply one `SectionBlock` builder call; `Field` silently drops the
field once 10 fields are stored. -/
def SectionBlockState.applyOp (b : SectionBlockState) : SectionOp → SectionBlockState
  | .text s markdown =>
    let md := markdown.getD true
    let ty := if md then "mrkdwn" else "plain_text"
    { b with options := mset b.options "text" (.vmap [("type", .vstr ty), ("text", .vstr s)]) }
  | .field s markdown =>
    if b.fields.length ≥ 10 then b
    else
      let md := markdown.getD true
      let ty := if md then "mrkdwn" else "plain_text"
      { b with fields := b.fields ++ [[("type", .vstr ty), ("text", .vstr s)]] }
  | .accessory e => { b with options := mset b.options "accessory" (.vmap e) }

/-- Run a sequence of `SectionBlock` builder calls from `NewSectionBlock()`. -/
def sectionBuild (ops : List SectionOp) : SectionBlockState :=
  ops.foldl SectionBlockState.applyOp
    { options := [("type", .vstr "section")], fields := [] }

/-! DSN parsing.  `NewDSN` delegates to Go's `net/url.Parse`; the model
below reproduces `url.Parse` (with `viaRequest = false`) restricted to
inputs without percent-escapes and without IPv6 bracket literals:
escape sequences are taken literally and `[...]` hosts are treated as
ordinary characters. -/

/-- Split a character list at the first occurrence of `c`; the second
component is `none` when `c` does not occur. -/
def splitAtFirst (c : Char) : List Char → List Char × Option (List Char)
  | [] => ([], none)
  | x :: t =>
    if x = c then ([], some t)
    else
      let r := splitAtFirst c t
      (x :: r.1, r.2)

/-- Split a character list at the last occurrence of `c`. -/
def splitAtLast (c : Char) (l : List Char) : Option (List Char × List Char) :=
  match splitAtFirst c l.reverse with
  | (revAfter, some revBefore) => some (revBefore.reverse, revAfter.reverse)
  | (_, none) => none

/-- Split a character list on every occurrence of `c`. -/
def splitAll (c : Char) : List Char → List (List Char)
  | [] => [[]]
  | x :: t =>
    let r := splitAll c t
    if x = c then [] :: r
    else
      match r with
      | [] => [[x]]
      | s :: rest => (x :: s) :: rest

/-- Go `validOptionalPort`: empty, or a colon followed by decimal digits
only. -/
def validOptionalPort (p : List Char) : Bool :=
  match p with
  | [] => true
  | c :: rest => c = ':' && rest.all (fun d => d.isDigit)

/-- Go `splitHostPort` on `u.Host` (without bracket handling): strip a
valid `:port` suffix at the last colon. -/
def splitHostPort (hostport : List Char) : List Char × List Char :=
  match splitAtLast ':' hostport with
  | some (before, after) =>
    if validOptionalPort (':' :: after) then (before, after) else (hostport, [])
  | none => (hostport, [])

/-- The punctuation Go `validUserinfo` accepts besides letters and digits. -/
def userinfoChars : List Char :=
  ['-', '.', '_', ':', '~', '!', '$', '&', '\'', '(', ')', '*', '+', ',',
   ';', '=', '%', '@']

/-- Go `validUserinfo`. -/
def validUserinfo (l : List Char) : Bool :=
  l.all (fun c => c.isAlpha || c.isDigit || userinfoChars.contains c)

/-- Go `getscheme`: scan for a `:` terminating a valid scheme; a leading
`:` is an error, any invalid character means the input has no scheme. -/
def schemeLoop (orig : List Char) :
    List Char → List Char → Bool → Except String (List Char × List Char)
  | [], _, _ => .ok ([], orig)
  | c :: rest, acc, first =>
    if c.isAlpha then schemeLoop orig rest (c :: acc) false
    else if c.isDigit || c = '+' || c = '-' || c = '.' then
      if first then .ok ([], orig) else schemeLoop orig rest (c :: acc) false
    else if c = ':' then
      if first then .error "missing protocol scheme"
      else .ok (acc.reverse, rest)
    else .ok ([], orig)

/-- The components of a parsed URL that `NewDSN` reads (`u.Host` is the
raw `host[:port]` authority component, as in Go). -/
structure URLModel where
  scheme : String
  username : String
  password : String
  hasPassword : Bool
  host : String
  path : String
  rawQuery : String
  deriving DecidableEq

/-- Go `parseHost` without bracket handling: validate a trailing port at
the last colon. -/
def parseHost (host : List Char) : Except String (List Char) :=
  match splitAtLast ':' host with
  | some (_, after) =>
    if validOptionalPort (':' :: after) then .ok host
    else .error ("invalid port " ++ quoteGo (String.mk (':' :: after)) ++ " after host")
  | none => .ok host

/-- Go `parseAuthority`: split userinfo at the last `@`, validate it, cut
user and password at the first colon, then parse the host. -/
def parseAuthority (authority : List Char) :
    Except String (String × String × Bool × List Char) :=
  match splitAtLast '@' authority with
  | none =>
    match parseHost authority with
    | .error e => .error e
    | .ok h => .ok ("", "", false, h)
  | some (userinfo, hostpart) =>
    if ! validUserinfo userinfo then .error "net/url: invalid userinfo"
    else
      match parseHost hostpart with
      | .error e => .error e
      | .ok h =>
        match splitAtFirst ':' userinfo with
        | (u, some pw) => .ok (String.mk u, String.mk pw, true, h)
        | (u, none) => .ok (String.mk u, "", false, h)

/-- Model of `url.Parse` (with `viaRequest = false`) on the subset
described above: strip the fragment, extract the scheme, split the query
at the first `?`, then parse an authority after `//` or fall back to an
opaque/path-only URL. -/
def parseURLModel (s : String) : Except String URLModel :=
  let l1 := (splitAtFirst '#' s.data).1
  match schemeLoop l1 l1 [] true with
  | .error e => .error e
  | .ok sr =>
    let scheme := String.mk (sr.1.map Char.toLower)
    let qcut := splitAtFirst '?' sr.2
    let rest := qcut.1
    let rawQuery := String.mk (qcut.2.getD [])
    if rest.head? ≠ some '/' then
      if scheme ≠ "" then
        .ok { scheme := scheme, username := "", password := "",
              hasPassword := false, host := "", path := "", rawQuery := rawQuery }
      else if ((splitAtFirst '/' rest).1).contains ':' then
        .error "first path segment in URL cannot contain colon"
      else
        .ok { scheme := "", username := "", password := "", hasPassword := false,
              host := "", path := String.mk rest, rawQuery := rawQuery }
    else if rest.take 2 = ['/', '/'] ∧ (scheme ≠ "" ∨ rest.take 3 ≠ ['/', '/', '/']) then
      let auth0 := rest.drop 2
      let acut := splitAtFirst '/' auth0
      let pathRest : List Char :=
        match acut.2 with
        | some after => '/' :: after
        | none => []
      match parseAuthority acut.1 with
      | .error e => .error e
      | .ok r =>
        .ok { scheme := scheme, username := r.1, password := r.2.1,
              hasPassword := r.2.2.1, host := String.mk r.2.2.2,
              path := String.mk pathRest, rawQuery := rawQuery }
    else
      .ok { scheme := scheme, username := "", password := "",
            hasPassword := false, host := "", path := String.mk rest,
            rawQuery := rawQuery }

/-- Model of `url.ParseQuery` followed by `NewDSN`'s
`options[k] = v[0]` loop: split on `&`, reject segments containing a
semicolon, skip empty segments, cut key and value at the first `=`, and
keep the first value of each repeated key. -/
def parseQueryModel (q : String) : Except String (List (String × String)) :=
  let segs := splitAll '&' q.data
  if segs.any (fun seg => seg.contains ';') then
    .error "invalid semicolon separator in query"
  else
    .ok (segs.foldl
      (fun acc seg =>
        if seg.isEmpty then acc
        else
          let cut := splitAtFirst '=' seg
          let k := String.mk cut.1
          let v := String.mk (cut.2.getD [])
          if acc.any (fun kv => kv.1 == k) then acc else acc ++ [(k, v)])
      [])

/-- The decimal value of a digit string (`strconv.Atoi` on a validated
port; integer overflow of Go's `int` is not modelled). -/
def natOfDigits (l : List Char) : Nat :=
  l.foldl (fun n c => n * 10 + (c.toNat - 48)) 0

/-- The `DSN` struct. -/
structure DSNModel where
  scheme : String
  host : String
  user : String
  password : String
  port : Nat
  path : String
  options : List (String × String)
  originalDSN : String
  deriving DecidableEq

/-- `NewDSN`: parse the URL, require a scheme and a non-empty
`host[:port]` authority, parse the query into a flat first-value map, and
extract the numeric port; the stored host is `u.Hostname()`, the authority
without its port. -/
def NewDSNModel (s : String) : Except String DSNModel :=
  match parseURLModel s with
  | .error e => .error ("invalid DSN: " ++ e)
  | .ok u =>
    if u.scheme = "" then .error "DSN must contain a scheme"
    else if u.host = "" then
      .error "DSN must contain a host (use 'default' by default)"
    else
      match (if u.rawQuery ≠ "" then parseQueryModel u.rawQuery else .ok []) with
      | .error e => .error ("invalid query parameters: " ++ e)
      | .ok opts =>
        let hp := splitHostPort u.host.data
        let port := if hp.2.isEmpty then 0 else natOfDigits hp.2
        .ok { scheme := u.scheme, host := String.mk hp.1, user := u.username,
              password := u.password, port := port, path := u.path,
              options := opts, originalDSN := s }

/-! Small projection helpers used to state concrete facts decidably. -/

/-- Project a string out of an optional map value. -/
def getStr : Option GoValue → Option String
  | some (.vstr s) => some s
  | _ => none

/-- Project the length of a `[]map[string]any` out of an optional map
value. -/
def lenOfListMap : Option GoValue → Option Nat
  | some (.vlistMap l) => some l.length
  | _ => none

/-- Project the host out of a `NewDSN` result. -/
def hostOfDSN : Except String DSNModel → Option String
  | .ok d => some d.host
  | .error _ => none

/-- Whether a `NewDSN` result is an error. -/
def isErrorE : Except String DSNModel → Bool
  | .ok _ => false
  | .error _ => true

/-- Intermediate form of `claimSendAll` before the zero-matches check
(shared between the dispatcher proofs). -/
def claimSendAllCore (ts : List TransportM) (m : ChatMessage) :
    List SentModel × Option String × List String :=
  let sup := ts.filter (fun t => t.supports m)
  let pre := sup.takeWhile (fun t => ! sendErrs t m)
  let results := pre.filterMap (fun t => (t.send m).toOption)
  match sup.dropWhile (fun t => ! sendErrs t m) with
  | [] => (results, none, sup.map (fun t => t.name))
  | tf :: _ => (results, errOf (tf.send m), (pre ++ [tf]).map (fun t => t.name))

/-! Concrete fixtures used by counterexamples and witnesses. -/

/-- A Telegram transport with no default channel (for the empty-value
filter counterexample). -/
def tgCxTransport : TelegramTransport :=
  { token := "tok", chatChannel := "", host := "", port := 0 }

/-- A message with empty subject and no options. -/
def tgCxMsg : ChatMessage :=
  { subject := "", options := [], transport := "" }

/-- A Slack transport with default channel `C` (for the recipient
counterexample). -/
def c3Transport : SlackTransport :=
  { accessToken := "x", channel := "C", host := "", port := 0 }

/-- A message carrying a recipient only in its Telegram options. -/
def c3Msg : ChatMessage :=
  { subject := "hi",
    options := [("telegram",
      .telegram { options := [("recipient_id", .vstr "T")], upload := [] })],
    transport := "" }

/-- A sent-message fixture. -/
def sentA : SentModel := { transportName := "A", messageID := "1", info := [] }

/-- Another sent-message fixture. -/
def sentC : SentModel := { transportName := "C", messageID := "3", info := [] }

/-- A message with no explicit target transport. -/
def mDisp : ChatMessage := { subject := "m", options := [], transport := "" }

/-- A supporting transport named `A` that succeeds. -/
def trA : TransportM :=
  { name := "A", supports := fun _ => true, send := fun _ => .ok sentA }

/-- A supporting transport named `B` that fails. -/
def trB : TransportM :=
  { name := "B", supports := fun _ => true, send := fun _ => .error "boom" }

/-- A supporting transport named `C` that succeeds. -/
def trC : TransportM :=
  { name := "C", supports := fun _ => true, send := fun _ => .ok sentC }

/-- A transport named `N` that supports nothing. -/
def trN : TransportM :=
  { name := "N", supports := fun _ => false, send := fun _ => .ok sentA }

/-- A Discord embed built by 26 `AddField` calls. -/
def embedCx : EmbedState :=
  embedBuild (List.replicate 26 (.addField "n" "v" none))

/-- The `DSN` produced for `slack://xoxb@default`. -/
def dsnW : DSNModel :=
  { scheme := "slack", host := "default", user := "xoxb", password := "",
    port := 0, path := "", options := [], originalDSN := "slack://xoxb@default" }

/-- The `URL` produced for `http://` (empty authority). -/
def urlW : URLModel :=
  { scheme := "http", username := "", password := "", hasPassword := false,
    host := "", path := "", rawQuery := "" }

/-- The `URL` produced for `slack://xoxb@default`. -/
def urlW2 : URLModel :=
  { scheme := "slack", username := "xoxb", password := "", hasPassword := false,
    host := "default", path := "", rawQuery := "" }

/-- An empty Slack builder (for the aliasing counterpart of C10). -/
def c10Opts : SlackOptions := { options := [], blocks := [] }

/-- A message carrying the empty Slack builder. -/
def c10Msg : ChatMessage :=
  { subject := "hi", options := [("slack", .slack c10Opts)], transport := "" }

/-- A Slack transport with default channel `C`. -/
def c10Transport : SlackTransport :=
  { accessToken := "tok", channel := "C", host := "", port := 0 }

/-- The map a second `ToMap` call returns after the Slack `Send` mutated
the message's builder in place. -/
def c10After : GoMap :=
  match (slackSendState c10Transport c10Msg).msg.getOptions "slack" with
  | some (.slack o) => o.toMapSt.1
  | _ => []

/-- A message carrying exactly one Slack options object (used to quantify
over messages of that shape). -/
def mkSlackMsg (subj tname : String) (om : GoMap) (bl : List GoMap) :
    ChatMessage :=
  { subject := subj,
    options := [("slack", .slack { options := om, blocks := bl })],
    transport := tname }

/-- A message carrying exactly one Telegram options object. -/
def mkTelegramMsg (subj tname : String) (om : GoMap)
    (up : List (String × String)) : ChatMessage :=
  { subject := subj,
    options := [("telegram", .telegram { options := om, upload := up })],
    transport := tname }

/-! Supporting lemmas. -/

@[simp] theorem mget_nil (k : String) : mget [] k = none := rfl

@[simp] theorem mget_cons (k2 k : String) (v : GoValue) (t : GoMap) :
    mget ((k2, v) :: t) k = if k2 = k then some v else mget t k := rfl

theorem mget_mset_self (m : GoMap) (k : String) (v : GoValue) :
    mget (mset m k v) k = some v := by
  induction m with
  | nil => simp [mset]
  | cons kv t ih =>
    obtain ⟨k2, v2⟩ := kv
    by_cases h : k2 = k <;> simp [mset, h, ih]

theorem mget_mset_ne (m : GoMap) (k k2 : String) (v : GoValue) (h : k ≠ k2) :
    mget (mset m k v) k2 = mget m k2 := by
  induction m with
  | nil => simp [mset, h]
  | cons kv t ih =>
    obtain ⟨k3, v3⟩ := kv
    by_cases h3 : k3 = k
    · subst h3
      simp [mset, h]
    · simp [mset, h3, ih]

theorem mset_mset_same (m : GoMap) (k : String) (v : GoValue) :
    mset (mset m k v) k v = mset m k v := by
  induction m with
  | nil => simp [mset]
  | cons kv t ih =>
    obtain ⟨k2, v2⟩ := kv
    by_cases h : k2 = k <;> simp [mset, h, ih]

theorem mget_mdel (m : GoMap) (k : String) : mget (mdel m k) k = none := by
  induction m with
  | nil => rfl
  | cons kv t ih =>
    obtain ⟨k2, v2⟩ := kv
    by_cases h : k2 = k <;> simp [mdel, h, ih]

theorem mhas_mset_self (m : GoMap) (k : String) (v : GoValue) :
    mhas (mset m k v) k = true := by
  simp [mhas, mget_mset_self]

theorem mhas_mdel (m : GoMap) (k : String) : mhas (mdel m k) k = false := by
  simp [mhas, mget_mdel]

theorem mhas_mset_ne (m : GoMap) (k k2 : String) (v : GoValue) (h : k ≠ k2) :
    mhas (mset m k v) k2 = mhas m k2 := by
  simp [mhas, mget_mset_ne m k k2 v h]

theorem isEmptyValue_eq_true_iff (v : GoValue) :
    isEmptyValue v = true ↔
      v = .vstr "" ∨ v = .vlist [] ∨ v = .vmap [] ∨ v = .vnil := by
  cases v <;> simp [isEmptyValue, List.isEmpty_iff]

theorem isNilValue_eq_true_iff (v : GoValue) :
    isNilValue v = true ↔ v = .vnil := by
  cases v <;> simp [isNilValue]

theorem mem_filterEmpty (m : GoMap) (k : String) (v : GoValue) :
    (k, v) ∈ filterEmpty m ↔ (k, v) ∈ m ∧ isEmptyValue v = false := by
  simp [filterEmpty, List.mem_filter]

theorem mem_filterNonNil (m : GoMap) (k : String) (v : GoValue) :
    (k, v) ∈ filterNonNil m ↔ (k, v) ∈ m ∧ isNilValue v = false := by
  simp [filterNonNil, List.mem_filter]

theorem mkeys_filterEmpty_subset (m : GoMap) :
    mkeys (filterEmpty m) ⊆ mkeys m := by
  intro k hk
  simp only [mkeys, List.mem_map] at hk ⊢
  obtain ⟨kv, hkv, rfl⟩ := hk
  exact ⟨kv, (List.mem_filter.1 hkv).1, rfl⟩

theorem mkeys_filterNonNil_subset (m : GoMap) :
    mkeys (filterNonNil m) ⊆ mkeys m := by
  intro k hk
  simp only [mkeys, List.mem_map] at hk ⊢
  obtain ⟨kv, hkv, rfl⟩ := hk
  exact ⟨kv, (List.mem_filter.1 hkv).1, rfl⟩


theorem mget_mdel_ne (m : GoMap) (k k2 : String) (h : k ≠ k2) :
    mget (mdel m k) k2 = mget m k2 := by
  induction m with
  | nil => rfl
  | cons kv t ih =>
    obtain ⟨k3, v3⟩ := kv
    by_cases h3 : k3 = k
    · subst h3
      have hne : ¬ k3 = k2 := h
      simp [mdel, hne, ih]
    · simp [mdel, h3, ih]

theorem mem_filterEmpty_spec (m : GoMap) (k : String) (v : GoValue) :
    (k, v) ∈ filterEmpty m ↔
      (k, v) ∈ m ∧ ¬(v = .vstr "" ∨ v = .vlist [] ∨ v = .vmap [] ∨ v = .vnil) := by
  rw [mem_filterEmpty]
  refine and_congr_right (fun _ => ?_)
  rw [← isEmptyValue_eq_true_iff]
  constructor
  · intro hf ht
    rw [ht] at hf
    cases hf
  · intro hn
    cases hv : isEmptyValue v
    · rfl
    · exact absurd hv hn

theorem mem_filterNonNil_spec (m : GoMap) (k : String) (v : GoValue) :
    (k, v) ∈ filterNonNil m ↔ (k, v) ∈ m ∧ v ≠ .vnil := by
  rw [mem_filterNonNil]
  refine and_congr_right (fun _ => ?_)
  rw [ne_eq, ← isNilValue_eq_true_iff]
  constructor
  · intro hf ht
    rw [ht] at hf
    cases hf
  · intro hn
    cases hv : isNilValue v
    · rfl
    · exact absurd hv hn

theorem slack_payload_eq (t : SlackTransport) (m : ChatMessage) :
    (slackSendState t m).payload = filterEmpty (slackSendState t m).assembled := by
  unfold slackSendState
  split <;> rfl

theorem discord_payload_eq (m : ChatMessage) :
    (discordSendState m).payload = filterEmpty (discordSendState m).assembled := by
  unfold discordSendState
  split <;> rfl

theorem teams_payload_eq (m : ChatMessage) :
    (teamsSendState m).payload = filterEmpty (teamsSendState m).assembled := by
  unfold teamsSendState
  split <;> rfl

theorem gotify_payload_eq (m : ChatMessage) :
    (gotifySendState m).payload = filterEmpty (gotifySendState m).assembled := by
  unfold gotifySendState
  split <;> rfl

theorem append_colon_ne (a b : String) :
    a ++ ":" ++ b ≠ "localhost" ∧ a ++ ":" ++ b ≠ "" := by
  have hmem : ':' ∈ (a ++ ":" ++ b).data := by
    rw [String.data_append, String.data_append]
    exact List.mem_append_left _ (List.mem_append_right _ (by decide))
  constructor
  · intro h
    rw [h] at hmem
    revert hmem
    decide
  · intro h
    rw [h] at hmem
    cases hmem

theorem providerEndpoint_spec (dflt host : String) (port : Int) :
    providerEndpoint dflt host port =
      if (host = "" ∨ host = "localhost") ∧ port ≤ 0 then dflt
      else if port > 0 then
        (if host = "" then "localhost" else host) ++ ":" ++ toString port
      else host := by
  unfold providerEndpoint abstractGetEndpoint
  by_cases hp : port > 0
  · have hne := append_colon_ne (if host = "" then "localhost" else host) (toString port)
    have hple : ¬ port ≤ 0 := by omega
    simp [hp, hple, hne.1, hne.2]
  · have hple : port ≤ 0 := by omega
    by_cases h0 : host = ""
    · simp [hp, h0, hple]
    · by_cases hl : host = "localhost"
      · simp [hp, h0, hl, hple]
      · simp [hp, h0, hl, hple]

theorem slackApiMethod_spec (opts : GoMap) :
    slackApiMethod opts =
      if mhas opts "post_at" then "chat.scheduleMessage"
      else if mhas opts "ts" then "chat.update"
      else "chat.postMessage" := by
  unfold slackApiMethod
  cases h1 : mhas opts "post_at" <;> cases h2 : mhas opts "ts" <;> simp [h1, h2]

theorem slackSendState_apiMethod (t : SlackTransport) (m : ChatMessage) :
    (slackSendState t m).apiMethod = slackApiMethod (slackSendState t m).assembled := by
  unfold slackSendState
  split <;> rfl

theorem telegramSendState_path (t : TelegramTransport) (m : ChatMessage) :
    (telegramSendState t m).path = telegramGetPath (telegramSendState t m).prePath := by
  unfold telegramSendState
  split <;> rfl

theorem telegram_filter_eq (t : TelegramTransport) (m : ChatMessage) (b : GoMap) :
    (telegramSendState t m).body = some b →
    b = tgExtractContact (tgExtractVenue (tgExtractLocation
      (filterNonNil (telegramSendState t m).assembled))) := by
  unfold telegramSendState
  split
  · intro h
    cases h
  · intro h
    exact (Option.some.inj h).symm

theorem ite_recipient_spec (r c : String) :
    (if r = "" ∧ c ≠ "" then c else r) = if r ≠ "" then r else c := by
  by_cases hr : r = "" <;> by_cases hc : c = "" <;> simp [hr, hc]

theorem slack_assembled_channel (t : SlackTransport) (m : ChatMessage) :
    mget (slackSendState t m).assembled "channel" = some (.vstr (slackChatID t m)) := by
  unfold slackSendState
  split <;>
    rw [mget_mset_ne _ _ _ _ (by decide), mget_mset_self]

theorem slack_assembled_text (t : SlackTransport) (m : ChatMessage) :
    mget (slackSendState t m).assembled "text" = some (.vstr m.subject) := by
  unfold slackSendState
  split <;> rw [mget_mset_self]

theorem telegram_preUpload_chatID (t : TelegramTransport) (m : ChatMessage) :
    mget (telegramPreUpload t m) "chat_id" = some (.vstr (telegramChatID t m)) := by
  unfold telegramPreUpload
  have h2 : mget (telegramM2 t m) "chat_id" = some (.vstr (telegramChatID t m)) := by
    unfold telegramM2
    rw [mget_mdel_ne _ _ _ (by decide), mget_mset_self]
  split
  · rw [mget_mset_ne _ _ _ _ (by decide), h2]
  · exact h2

theorem telegram_prePath_chatID (t : TelegramTransport) (m : ChatMessage) :
    mget (telegramSendState t m).prePath "chat_id" = some (.vstr (telegramChatID t m)) := by
  unfold telegramSendState
  split
  · rw [mget_mdel_ne _ _ _ (by decide)]
    exact telegram_preUpload_chatID t m
  · exact telegram_preUpload_chatID t m

theorem head_dropWhile_false {α : Type} (p : α → Bool) (l : List α) (x : α)
    (xs : List α) (h : l.dropWhile p = x :: xs) : p x = false := by
  induction l with
  | nil => cases h
  | cons a t ih =>
    rw [List.dropWhile_cons] at h
    by_cases hp : p a = true
    · rw [if_pos hp] at h
      exact ih h
    · rw [if_neg hp] at h
      cases h
      simpa using hp

theorem sendAllLoop_eq_core (ts : List TransportM) (m : ChatMessage) :
    notifierSendAllLoop ts m = claimSendAllCore ts m := by
  induction ts with
  | nil => rfl
  | cons t rest ih =>
    by_cases hs : t.supports m = true
    · cases hsend : t.send m with
      | error e =>
        have herr : sendErrs t m = true := by simp [sendErrs, hsend]
        unfold notifierSendAllLoop claimSendAllCore
        rw [hsend]
        simp [hs, herr, List.takeWhile_cons, List.dropWhile_cons, errOf, hsend]
      | ok s =>
        have hok : sendErrs t m = false := by simp [sendErrs, hsend]
        unfold notifierSendAllLoop claimSendAllCore
        rw [hsend, ih]
        unfold claimSendAllCore
        simp only [hs, if_true, List.filter_cons, List.takeWhile_cons,
          List.dropWhile_cons, hok, Bool.not_false, if_pos, List.filterMap_cons,
          Except.toOption, hsend, decide_eq_true_eq]
        cases hdw : (rest.filter (fun tr => tr.supports m)).dropWhile
            (fun tr => ! sendErrs tr m) with
        | nil => simp [hdw]
        | cons tf tl => simp [hdw]
    · have hs2 : t.supports m = false := by simpa using hs
      unfold notifierSendAllLoop claimSendAllCore
      rw [ih]
      unfold claimSendAllCore
      simp [hs2]

theorem find?_eq_get_of_first {α : Type} (p : α → Bool) (l : List α) (i : Nat)
    (hi : i < l.length) (hp : p (l.get ⟨i, hi⟩) = true)
    (hmin : ∀ j (hj : j < i), p (l.get ⟨j, Nat.lt_trans hj hi⟩) = false) :
    l.find? p = some (l.get ⟨i, hi⟩) := by
  induction l generalizing i with
  | nil => cases hi
  | cons a t ih =>
    cases i with
    | zero =>
      simp only [List.get] at hp ⊢
      simp [List.find?, hp]
    | succ n =>
      have h0 : p a = false := hmin 0 (Nat.succ_pos n)
      simp only [List.get] at hp ⊢
      rw [List.find?]
      rw [h0]
      exact ih n (Nat.lt_of_succ_lt_succ hi) hp
        (fun j hj => hmin (j + 1) (Nat.succ_lt_succ hj))

theorem slack_foldl_blocks_le (ops : List SlackOp) :
    ∀ o : SlackOptions, o.blocks.length ≤ 50 →
      (ops.foldl SlackOptions.applyOp o).blocks.length ≤ 50 := by
  induction ops with
  | nil =>
    intro o h
    simpa using h
  | cons op rest ih =>
    intro o h
    rw [List.foldl_cons]
    apply ih
    cases op with
    | block b =>
      by_cases hb : o.blocks.length ≥ 50
      · simpa [SlackOptions.applyOp, hb] using h
      · simp [SlackOptions.applyOp, hb]
        omega
    | recipient a => simpa [SlackOptions.applyOp] using h
    | asUser a => simpa [SlackOptions.applyOp] using h
    | postAt a => simpa [SlackOptions.applyOp] using h
    | iconEmoji a => simpa [SlackOptions.applyOp] using h
    | iconUrl a => simpa [SlackOptions.applyOp] using h
    | linkNames a => simpa [SlackOptions.applyOp] using h
    | mrkdwn a => simpa [SlackOptions.applyOp] using h
    | parse a => simpa [SlackOptions.applyOp] using h
    | unfurlLinks a => simpa [SlackOptions.applyOp] using h
    | unfurlMedia a => simpa [SlackOptions.applyOp] using h
    | username a => simpa [SlackOptions.applyOp] using h
    | threadTs a => simpa [SlackOptions.applyOp] using h

theorem slack_applyOp_options_blocks (o : SlackOptions) (op : SlackOp) :
    mget (o.applyOp op).options "blocks" = mget o.options "blocks" := by
  cases op with
  | block b =>
    by_cases hb : o.blocks.length ≥ 50 <;> simp [SlackOptions.applyOp, hb]
  | recipient a => exact mget_mset_ne _ _ _ _ (by decide)
  | asUser a => exact mget_mset_ne _ _ _ _ (by decide)
  | postAt a => exact mget_mset_ne _ _ _ _ (by decide)
  | iconEmoji a => exact mget_mset_ne _ _ _ _ (by decide)
  | iconUrl a => exact mget_mset_ne _ _ _ _ (by decide)
  | linkNames a => exact mget_mset_ne _ _ _ _ (by decide)
  | mrkdwn a => exact mget_mset_ne _ _ _ _ (by decide)
  | parse a => exact mget_mset_ne _ _ _ _ (by decide)
  | unfurlLinks a => exact mget_mset_ne _ _ _ _ (by decide)
  | unfurlMedia a => exact mget_mset_ne _ _ _ _ (by decide)
  | username a => exact mget_mset_ne _ _ _ _ (by decide)
  | threadTs a => exact mget_mset_ne _ _ _ _ (by decide)

theorem slack_foldl_options_blocks (ops : List SlackOp) :
    ∀ o : SlackOptions, mget o.options "blocks" = none →
      mget ((ops.foldl SlackOptions.applyOp o).options) "blocks" = none := by
  induction ops with
  | nil =>
    intro o h
    simpa using h
  | cons op rest ih =>
    intro o h
    rw [List.foldl_cons]
    exact ih _ ((slack_applyOp_options_blocks o op).trans h)

theorem discord_foldl_embeds_le (ops : List DiscordOp) :
    ∀ o : DiscordOptions, o.embeds.length ≤ 10 →
      (ops.foldl DiscordOptions.applyOp o).embeds.length ≤ 10 := by
  induction ops with
  | nil =>
    intro o h
    simpa using h
  | cons op rest ih =>
    intro o h
    rw [List.foldl_cons]
    apply ih
    cases op with
    | addEmbed e =>
      by_cases hb : o.embeds.length ≥ 10
      · simpa [DiscordOptions.applyOp, hb] using h
      · simp [DiscordOptions.applyOp, hb]
        omega
    | recipient a => simpa [DiscordOptions.applyOp] using h
    | username a => simpa [DiscordOptions.applyOp] using h
    | avatarUrl a => simpa [DiscordOptions.applyOp] using h
    | tts a => simpa [DiscordOptions.applyOp] using h

theorem discord_applyOp_options_embeds (o : DiscordOptions) (op : DiscordOp) :
    mget (o.applyOp op).options "embeds" = mget o.options "embeds" := by
  cases op with
  | addEmbed e =>
    by_cases hb : o.embeds.length ≥ 10 <;> simp [DiscordOptions.applyOp, hb]
  | recipient a => exact mget_mset_ne _ _ _ _ (by decide)
  | username a => exact mget_mset_ne _ _ _ _ (by decide)
  | avatarUrl a => exact mget_mset_ne _ _ _ _ (by decide)
  | tts a => exact mget_mset_ne _ _ _ _ (by decide)

theorem discord_foldl_options_embeds (ops : List DiscordOp) :
    ∀ o : DiscordOptions, mget o.options "embeds" = none →
      mget ((ops.foldl DiscordOptions.applyOp o).options) "embeds" = none := by
  induction ops with
  | nil =>
    intro o h
    simpa using h
  | cons op rest ih =>
    intro o h
    rw [List.foldl_cons]
    exact ih _ ((discord_applyOp_options_embeds o op).trans h)

theorem section_foldl_fields_le (ops : List SectionOp) :
    ∀ b : SectionBlockState, b.fields.length ≤ 10 →
      (ops.foldl SectionBlockState.applyOp b).fields.length ≤ 10 := by
  induction ops with
  | nil =>
    intro b h
    simpa using h
  | cons op rest ih =>
    intro b h
    rw [List.foldl_cons]
    apply ih
    cases op with
    | field s md =>
      by_cases hb : b.fields.length ≥ 10
      · simpa [SectionBlockState.applyOp, hb] using h
      · simp [SectionBlockState.applyOp, hb]
        omega
    | text s md => simpa [SectionBlockState.applyOp] using h
    | accessory e => simpa [SectionBlockState.applyOp] using h

theorem embed_foldl_fields (ops : List EmbedOp) :
    ∀ e : EmbedState, (ops.foldl EmbedState.applyOp e).fields.length =
      e.fields.length + (ops.filter EmbedOp.isAddField).length := by
  induction ops with
  | nil =>
    intro e
    simp
  | cons op rest ih =>
    intro e
    rw [List.foldl_cons, List.filter_cons]
    cases op with
    | addField n v i =>
      rw [ih]
      simp [EmbedOp.isAddField, EmbedState.applyOp]
      omega
    | title s => simpa [EmbedOp.isAddField, EmbedState.applyOp] using ih _
    | description s => simpa [EmbedOp.isAddField, EmbedState.applyOp] using ih _
    | url s => simpa [EmbedOp.isAddField, EmbedState.applyOp] using ih _
    | timestamp s => simpa [EmbedOp.isAddField, EmbedState.applyOp] using ih _
    | color s => simpa [EmbedOp.isAddField, EmbedState.applyOp] using ih _
    | footer s i => simpa [EmbedOp.isAddField, EmbedState.applyOp] using ih _
    | thumbnail s => simpa [EmbedOp.isAddField, EmbedState.applyOp] using ih _
    | image s => simpa [EmbedOp.isAddField, EmbedState.applyOp] using ih _
    | author s i => simpa [EmbedOp.isAddField, EmbedState.applyOp] using ih _

theorem telegramGetTextOption_cases (opts : GoMap) :
    telegramGetTextOption opts = "caption" ∨ telegramGetTextOption opts = "" ∨
      telegramGetTextOption opts = "text" := by
  unfold telegramGetTextOption
  split_ifs <;> simp

theorem telegram_m4_get_ne (t : TelegramTransport) (m : ChatMessage)
    (k : String) (hc : k ≠ "caption") (ht : k ≠ "text") :
    mget (telegramM4 t m) k = mget (telegramPreUpload t m) k := by
  unfold telegramM4
  rcases telegramGetTextOption_cases (telegramPreUpload t m) with h | h | h <;>
    rw [h] <;> simp <;> rw [mget_mset_ne]
  · exact fun hx => hc hx.symm
  · exact fun hx => ht hx.symm

theorem telegram_m4_chatID (t : TelegramTransport) (m : ChatMessage) :
    mget (telegramM4 t m) "chat_id" = some (.vstr (telegramChatID t m)) := by
  rw [telegram_m4_get_ne t m "chat_id" (by decide) (by decide)]
  exact telegram_preUpload_chatID t m

theorem telegram_assembled_chatID (t : TelegramTransport) (m : ChatMessage) :
    mget (telegramSendState t m).assembled "chat_id" =
      some (.vstr (telegramChatID t m)) := by
  unfold telegramSendState
  split
  · rw [mget_mdel_ne _ _ _ (by decide)]
    exact telegram_preUpload_chatID t m
  · exact telegram_m4_chatID t m

theorem telegram_preUpload_parseMode (t : TelegramTransport) (m : ChatMessage) :
    mhas (telegramPreUpload t m) "parse_mode" = true := by
  unfold telegramPreUpload
  split
  · simp [mhas, mget_mset_self]
  · next h =>
    cases hm : mget (telegramM2 t m) "parse_mode" with
    | none =>
      unfold telegramUsesMdV2 at h
      rw [hm] at h
      simp at h
    | some v => simp [mhas, hm]

theorem telegram_assembled_parseMode (t : TelegramTransport) (m : ChatMessage) :
    mhas (telegramSendState t m).assembled "parse_mode" = true := by
  unfold telegramSendState
  split
  · rw [mhas, mget_mdel_ne _ _ _ (by decide)]
    exact telegram_preUpload_parseMode t m
  · rw [mhas, telegram_m4_get_ne t m "parse_mode" (by decide) (by decide)]
    exact telegram_preUpload_parseMode t m

theorem telegram_preUpload_recipient (t : TelegramTransport) (m : ChatMessage) :
    mget (telegramPreUpload t m) "recipient_id" = none := by
  have h2 : mget (telegramM2 t m) "recipient_id" = none := mget_mdel _ _
  unfold telegramPreUpload
  split
  · rw [mget_mset_ne _ _ _ _ (by decide)]
    exact h2
  · exact h2

theorem telegram_assembled_recipient (t : TelegramTransport) (m : ChatMessage) :
    mhas (telegramSendState t m).assembled "recipient_id" = false := by
  unfold telegramSendState
  split
  · rw [mhas, mget_mdel_ne _ _ _ (by decide), telegram_preUpload_recipient]
    rfl
  · rw [mhas, telegram_m4_get_ne t m "recipient_id" (by decide) (by decide),
      telegram_preUpload_recipient]
    rfl

theorem telegram_msg_eq_remsg (t : TelegramTransport) (m : ChatMessage) :
    (telegramSendState t m).msg = telegramRemsg m (telegramSendState t m).assembled := by
  unfold telegramSendState
  split <;> rfl

theorem telegram_toMapSt_upload (o : TelegramOptions) :
    (o.toMapSt).2.upload = o.upload := by
  unfold TelegramOptions.toMapSt
  split <;> rfl

/-! Claim theorems. -/

/-- C1 (counterexample): the Telegram `Send` filter does not remove
empty-string values.  Sending an empty-subject message with no options
through a Telegram transport with no default channel produces a JSON body
that still contains `chat_id` bound to `""`, although `""` is an empty
value in the sense of the shared `isEmptyValue` helper. -/
theorem C1_counterexample :
    (telegramSendState tgCxTransport tgCxMsg).body.map
        (fun b => getStr (mget b "chat_id")) = some (some "") ∧
      isEmptyValue (.vstr "") = true := by
  constructor
  · rfl
  · rfl

/-- C1 (amended): for Slack, Discord, Microsoft Teams and Gotify the
`Send` filtering step keeps exactly the assembled entries whose value is
not an empty string, empty `[]any` list, empty `map[string]any` map or
nil, and the filtered keys are a subset of the assembled keys; Telegram's
filtering step instead keeps exactly the entries whose value is not nil
(empty strings, lists and maps are retained). -/
theorem C1_filter_semantics :
    (∀ (t : SlackTransport) (m : ChatMessage) (k : String) (v : GoValue),
      (k, v) ∈ (slackSendState t m).payload ↔
        (k, v) ∈ (slackSendState t m).assembled ∧
          ¬(v = .vstr "" ∨ v = .vlist [] ∨ v = .vmap [] ∨ v = .vnil))
    ∧ (∀ (m : ChatMessage) (k : String) (v : GoValue),
      (k, v) ∈ (discordSendState m).payload ↔
        (k, v) ∈ (discordSendState m).assembled ∧
          ¬(v = .vstr "" ∨ v = .vlist [] ∨ v = .vmap [] ∨ v = .vnil))
    ∧ (∀ (m : ChatMessage) (k : String) (v : GoValue),
      (k, v) ∈ (teamsSendState m).payload ↔
        (k, v) ∈ (teamsSendState m).assembled ∧
          ¬(v = .vstr "" ∨ v = .vlist [] ∨ v = .vmap [] ∨ v = .vnil))
    ∧ (∀ (m : ChatMessage) (k : String) (v : GoValue),
      (k, v) ∈ (gotifySendState m).payload ↔
        (k, v) ∈ (gotifySendState m).assembled ∧
          ¬(v = .vstr "" ∨ v = .vlist [] ∨ v = .vmap [] ∨ v = .vnil))
    ∧ (∀ (t : SlackTransport) (m : ChatMessage),
      mkeys (slackSendState t m).payload ⊆ mkeys (slackSendState t m).assembled)
    ∧ (∀ (t : TelegramTransport) (m : ChatMessage) (k : String) (v : GoValue),
      (k, v) ∈ filterNonNil (telegramSendState t m).assembled ↔
        (k, v) ∈ (telegramSendState t m).assembled ∧ v ≠ .vnil) := by
  refine ⟨fun t m k v => ?_, fun m k v => ?_, fun m k v => ?_, fun m k v => ?_,
    fun t m => ?_, fun t m k v => ?_⟩
  · rw [slack_payload_eq]
    exact mem_filterEmpty_spec _ k v
  · rw [discord_payload_eq]
    exact mem_filterEmpty_spec _ k v
  · rw [teams_payload_eq]
    exact mem_filterEmpty_spec _ k v
  · rw [gotify_payload_eq]
    exact mem_filterEmpty_spec _ k v
  · rw [slack_payload_eq]
    exact mkeys_filterEmpty_subset _
  · exact mem_filterNonNil_spec _ k v

/-- C2 (counterexample): with configured host `localhost` and port 8080
the Slack transport resolves to `localhost:8080`, not to the provider
default, because the sentinel comparison runs on the combined `host:port`
endpoint. -/
theorem C2_counterexample :
    slackGetEndpoint "localhost" 8080 = "localhost:8080" ∧
      slackGetEndpoint "localhost" 8080 ≠ "slack.com" := by
  constructor
  · rfl
  · decide

/-- C2 (amended): every transport resolves its endpoint to the provider
default exactly when the configured host is `""` or `"localhost"` AND the
port is not positive; when the port is positive the endpoint is
`host:port` (with `localhost` substituted for an empty host), and
otherwise it is the configured host.  Microsoft Teams posts to its
configured webhook URL and consults this resolution only when that URL is
empty. -/
theorem C2_endpoint_resolution :
    (∀ (host : String) (port : Int),
      slackGetEndpoint host port =
        if (host = "" ∨ host = "localhost") ∧ port ≤ 0 then "slack.com"
        else if port > 0 then
          (if host = "" then "localhost" else host) ++ ":" ++ toString port
        else host)
    ∧ (∀ (host : String) (port : Int),
      telegramGetEndpoint host port =
        if (host = "" ∨ host = "localhost") ∧ port ≤ 0 then "api.telegram.org"
        else if port > 0 then
          (if host = "" then "localhost" else host) ++ ":" ++ toString port
        else host)
    ∧ (∀ (host : String) (port : Int),
      discordGetEndpoint host port =
        if (host = "" ∨ host = "localhost") ∧ port ≤ 0 then "discord.com"
        else if port > 0 then
          (if host = "" then "localhost" else host) ++ ":" ++ toString port
        else host)
    ∧ (∀ (host : String) (port : Int),
      teamsGetEndpoint host port =
        if (host = "" ∨ host = "localhost") ∧ port ≤ 0 then "webhook.office.com"
        else if port > 0 then
          (if host = "" then "localhost" else host) ++ ":" ++ toString port
        else host)
    ∧ (∀ (host : String) (port : Int),
      gotifyGetEndpoint host port =
        if (host = "" ∨ host = "localhost") ∧ port ≤ 0 then
          "gotify-server-required.com"
        else if port > 0 then
          (if host = "" then "localhost" else host) ++ ":" ++ toString port
        else host)
    ∧ (∀ (w host : String) (port : Int),
      teamsRequestEndpoint w host port =
        if w = "" then teamsGetEndpoint host port else w) := by
  refine ⟨fun host port => ?_, fun host port => ?_, fun host port => ?_,
    fun host port => ?_, fun host port => ?_, fun w host port => rfl⟩ <;>
    exact providerEndpoint_spec _ host port

/-- C3 (counterexample): a recipient set only in the message's Telegram
options determines the `channel` of a Slack send: with Slack default
channel `C` and a Telegram-only recipient `T`, the Slack payload carries
`channel = T`, not the transport's own default `C`. -/
theorem C3_counterexample :
    getStr (mget (slackSendState c3Transport c3Msg).payload "channel") = some "T" ∧
      getStr (mget (slackSendState c3Transport c3Msg).payload "channel") ≠ some "C" := by
  constructor
  · rfl
  · decide

/-- C3 (amended): the recipient placed in the outgoing payload is the
first non-empty recipient found across ALL of the message's option sets
(in map-iteration order, modelled as insertion order) — the sending
transport's own options are not privileged — and only when every option
set yields an empty recipient does the transport's configured default
apply. -/
theorem C3_recipient_resolution :
    (∀ (t : SlackTransport) (m : ChatMessage),
      mget (slackSendState t m).assembled "channel" =
        some (.vstr (if m.getRecipientId ≠ "" then m.getRecipientId else t.channel)))
    ∧ (∀ (t : TelegramTransport) (m : ChatMessage),
      mget (telegramSendState t m).prePath "chat_id" =
        some (.vstr (if m.getRecipientId ≠ "" then m.getRecipientId else t.chatChannel))) := by
  constructor
  · intro t m
    rw [slack_assembled_channel]
    unfold slackChatID
    rw [ite_recipient_spec]
  · intro t m
    rw [telegram_prePath_chatID]
    unfold telegramChatID
    rw [ite_recipient_spec]

/-- C8 (confirmed): the provider operation is a fixed-precedence decision
table over key presence: Slack selects `chat.scheduleMessage` when
`post_at` is present (overriding `ts`), `chat.update` when only `ts` is
present, and `chat.postMessage` otherwise; Telegram selects the first
match in the order `message_id`, `callback_query_id`, `photo`, `location`,
`audio`, `document`, `video`, `animation`, `venue`, `contact`, `sticker`,
defaulting to `sendMessage`. -/
theorem C8_operation_selection :
    (∀ (t : SlackTransport) (m : ChatMessage),
      (slackSendState t m).apiMethod =
        if mhas (slackSendState t m).assembled "post_at" then "chat.scheduleMessage"
        else if mhas (slackSendState t m).assembled "ts" then "chat.update"
        else "chat.postMessage")
    ∧ (∀ (t : TelegramTransport) (m : ChatMessage),
      (telegramSendState t m).path =
        if mhas (telegramSendState t m).prePath "message_id" then "editMessageText"
        else if mhas (telegramSendState t m).prePath "callback_query_id" then
          "answerCallbackQuery"
        else if mhas (telegramSendState t m).prePath "photo" then "sendPhoto"
        else if mhas (telegramSendState t m).prePath "location" then "sendLocation"
        else if mhas (telegramSendState t m).prePath "audio" then "sendAudio"
        else if mhas (telegramSendState t m).prePath "document" then "sendDocument"
        else if mhas (telegramSendState t m).prePath "video" then "sendVideo"
        else if mhas (telegramSendState t m).prePath "animation" then "sendAnimation"
        else if mhas (telegramSendState t m).prePath "venue" then "sendVenue"
        else if mhas (telegramSendState t m).prePath "contact" then "sendContact"
        else if mhas (telegramSendState t m).prePath "sticker" then "sendSticker"
        else "sendMessage") := by
  constructor
  · intro t m
    rw [slackSendState_apiMethod, slackApiMethod_spec]
  · intro t m
    rw [telegramSendState_path]
    rfl

/-- C9 (confirmed): for every provider's `Options` variant, calling
`ToMap` twice without intervening mutation returns the same map — the
second call re-writes the same collection binding into the (aliased) map,
leaving it unchanged. -/
theorem C9_toMap_idempotent :
    (∀ o : SlackOptions, ((o.toMapSt).2.toMapSt).1 = (o.toMapSt).1)
    ∧ (∀ o : TelegramOptions, ((o.toMapSt).2.toMapSt).1 = (o.toMapSt).1)
    ∧ (∀ o : DiscordOptions, ((o.toMapSt).2.toMapSt).1 = (o.toMapSt).1)
    ∧ (∀ o : TeamsOptions, ((o.toMapSt).2.toMapSt).1 = (o.toMapSt).1)
    ∧ (∀ o : GotifyOptions, ((o.toMapSt).2.toMapSt).1 = (o.toMapSt).1) := by
  refine ⟨fun o => ?_, fun o => ?_, fun o => ?_, fun o => ?_, fun o => ?_⟩
  · by_cases h : o.blocks.isEmpty <;>
      simp [SlackOptions.toMapSt, h, mset_mset_same]
  · by_cases h : o.upload.isEmpty <;>
      simp [TelegramOptions.toMapSt, h, mset_mset_same]
  · by_cases h : o.embeds.isEmpty <;>
      simp [DiscordOptions.toMapSt, h, mset_mset_same]
  · by_cases h : o.potentialActions.isEmpty <;>
      simp [TeamsOptions.toMapSt, h, mset_mset_same]
  · by_cases h : o.extras.isEmpty <;>
      simp [GotifyOptions.toMapSt, h, mset_mset_same]

/-- C4 (counterexample): with an empty transport list, `SendAll` returns
the distinct `no transports configured` error, not the
no-supporting-transport error the claim requires for a message no
transport supports. -/
theorem C4_counterexample :
    notifierSendAll [] mDisp = ([], some "no transports configured", []) ∧
      some "no transports configured" ≠
        some "no transport supports this message" := by
  constructor
  · rfl
  · decide

/-- C4 (amended): for every NON-EMPTY transport list, `SendAll` invokes
exactly the supporting transports in construction order up to and
including the first one whose send fails, returns that first error with
the results collected before it (all results and no error when none
fails), and returns the no-supporting-transport error when zero transports
support the message; an empty transport list instead yields a
no-transports-configured error. -/
theorem C4_sendAll (ts : List TransportM) (m : ChatMessage) (h : ts ≠ []) :
    notifierSendAll ts m = claimSendAll ts m := by
  have he : ts.isEmpty = false := by
    cases ts with
    | nil => exact absurd rfl h
    | cons a t => rfl
  unfold notifierSendAll claimSendAll
  rw [he, sendAllLoop_eq_core]
  unfold claimSendAllCore
  simp only [Bool.false_eq_true, if_false]
  cases hdw : (ts.filter (fun t => t.supports m)).dropWhile
      (fun t => ! sendErrs t m) with
  | nil =>
    by_cases hres : (((ts.filter (fun t => t.supports m)).takeWhile
        (fun t => ! sendErrs t m)).filterMap
          (fun t => (t.send m).toOption)).isEmpty = true
    · simp [hdw, hres]
    · have hres2 : (((ts.filter (fun t => t.supports m)).takeWhile
          (fun t => ! sendErrs t m)).filterMap
            (fun t => (t.send m).toOption)).isEmpty = false := by
        simpa using hres
      simp [hdw, hres2]
  | cons tf tl =>
    have herr : (fun t => ! sendErrs t m) tf = false :=
      head_dropWhile_false (fun t => ! sendErrs t m)
        (ts.filter (fun t => t.supports m)) tf tl hdw
    have herr2 : sendErrs tf m = true := by
      simpa using herr
    cases hsend : tf.send m with
    | error e => simp [hdw, hsend, errOf]
    | ok s =>
      rw [sendErrs, hsend] at herr2
      cases herr2

/-- C4 (witness): the spec's three-transport scenario — the second fails,
so exactly one result is collected, the first error is propagated and the
third transport is never invoked. -/
theorem C4_sendAll_witness :
    notifierSendAll [trA, trB, trC] mDisp = claimSendAll [trA, trB, trC] mDisp ∧
      notifierSendAll [trA, trB, trC] mDisp = ([sentA], some "boom", ["A", "B"]) := by
  constructor
  · exact C4_sendAll [trA, trB, trC] mDisp (by simp)
  · rfl

/-- C5 (counterexample): with an empty transport list and a message with
no explicit target, `Send` returns the distinct `no transports configured`
error, not the no-supporting-transport error the claim requires when no
transport supports the message. -/
theorem C5_counterexample :
    notifierSend [] mDisp = (.error "no transports configured", []) ∧
      ("no transports configured" : String) ≠
        "no transport supports this message" := by
  constructor
  · rfl
  · decide

/-- C5 (amended): for every NON-EMPTY transport list: with no explicit
target, `Send` invokes exactly the first transport in construction order
whose `Supports` is true and returns its result, and fails with the
no-supporting-transport error when none supports the message; with an
explicit target, it invokes exactly the first transport whose `String()`
equals the target and whose `Supports` is true, and fails with the
target-not-found error when there is none.  An empty transport list
instead yields a no-transports-configured error. -/
theorem C5_send_routing (ts : List TransportM) (m : ChatMessage) (hne : ts ≠ []) :
    (m.transport = "" → ∀ (i : Nat) (hi : i < ts.length),
      (ts.get ⟨i, hi⟩).supports m = true →
      (∀ j (hj : j < i), (ts.get ⟨j, Nat.lt_trans hj hi⟩).supports m = false) →
      notifierSend ts m = ((ts.get ⟨i, hi⟩).send m, [(ts.get ⟨i, hi⟩).name]))
    ∧ (m.transport = "" → (∀ t ∈ ts, t.supports m = false) →
      notifierSend ts m = (.error "no transport supports this message", []))
    ∧ (m.transport ≠ "" → ∀ (i : Nat) (hi : i < ts.length),
      (ts.get ⟨i, hi⟩).name = m.transport → (ts.get ⟨i, hi⟩).supports m = true →
      (∀ j (hj : j < i),
        ¬((ts.get ⟨j, Nat.lt_trans hj hi⟩).name = m.transport ∧
          (ts.get ⟨j, Nat.lt_trans hj hi⟩).supports m = true)) →
      notifierSend ts m = ((ts.get ⟨i, hi⟩).send m, [(ts.get ⟨i, hi⟩).name]))
    ∧ (m.transport ≠ "" →
      (∀ t ∈ ts, ¬(t.name = m.transport ∧ t.supports m = true)) →
      notifierSend ts m =
        (.error ("transport " ++ quoteGo m.transport ++
          " not found or does not support message"), [])) := by
  have he : ts.isEmpty = false := by
    cases ts with
    | nil => exact absurd rfl hne
    | cons a t => rfl
  refine ⟨fun htr i hi hp hmin => ?_, fun htr hnone => ?_,
    fun htr i hi hname hp hmin => ?_, fun htr hnone => ?_⟩
  · unfold notifierSend
    rw [he, htr]
    have hfind := find?_eq_get_of_first (fun t => t.supports m) ts i hi hp hmin
    simp [hfind]
  · unfold notifierSend
    rw [he, htr]
    have hfind : ts.find? (fun t => t.supports m) = none :=
      List.find?_eq_none.2 (fun x hx => by simp [hnone x hx])
    simp [hfind]
  · unfold notifierSend
    rw [he]
    have hfind := find?_eq_get_of_first
      (fun t => t.name == m.transport && t.supports m) ts i hi
      (by rw [Bool.and_eq_true, beq_iff_eq]
          exact ⟨hname, hp⟩)
      (fun j hj => by
        have := hmin j hj
        simp only [Bool.and_eq_false_iff]
        by_cases hn : (ts.get ⟨j, Nat.lt_trans hj hi⟩).name = m.transport
        · right
          by_cases hs : (ts.get ⟨j, Nat.lt_trans hj hi⟩).supports m = true
          · exact absurd ⟨hn, hs⟩ this
          · simpa using hs
        · left
          simpa using hn)
    simp [htr, hfind]
  · unfold notifierSend
    rw [he]
    have hfind : ts.find? (fun t => t.name == m.transport && t.supports m) = none := by
      refine List.find?_eq_none.2 (fun x hx => ?_)
      have := hnone x hx
      simp only [Bool.and_eq_true, beq_iff_eq]
      exact fun hc => this hc
    simp [htr, hfind]

/-- C5 (witness): the spec's scenario — two transports where only the
second supports the message route to the second, not the first. -/
theorem C5_send_witness :
    notifierSend [trN, trA] mDisp = (.ok sentA, ["A"]) := by
  have h := (C5_send_routing [trN, trA] mDisp (by simp)).1 rfl 1 (by decide)
    rfl
    (by
      intro j hj
      have hj0 : j = 0 := by omega
      subst hj0
      rfl)
  exact h

/-- C6 (counterexample): `Embed.AddField` has no size guard: 26 `AddField`
calls yield an embed whose `ToMap` output carries 26 fields, exceeding
Discord's documented hard limit of 25 fields per embed. -/
theorem C6_counterexample :
    embedCx.fields.length = 26 ∧
      lenOfListMap (mget (embedCx.toMapSt).1 "fields") = some 26 := by
  constructor
  · rfl
  · rfl

/-- C6 (amended): for every sequence of builder calls, a Slack `Options`
holds at most 50 blocks and a Discord `Options` at most 10 embeds — both
in the builder state and in the `ToMap` output — and a Slack
`SectionBlock` holds at most 10 fields, additions beyond the cap being
silently dropped; but a Discord `Embed` keeps every added field: its
fields count equals the number of `AddField` calls, with no provider cap
applied. -/
theorem C6_collection_caps :
    (∀ ops : List SlackOp, (slackBuild ops).blocks.length ≤ 50)
    ∧ (∀ ops : List SlackOp,
      (lenOfListMap (mget ((slackBuild ops).toMapSt).1 "blocks")).getD 0 ≤ 50)
    ∧ (∀ ops : List DiscordOp, (discordBuild ops).embeds.length ≤ 10)
    ∧ (∀ ops : List DiscordOp,
      (lenOfListMap (mget ((discordBuild ops).toMapSt).1 "embeds")).getD 0 ≤ 10)
    ∧ (∀ ops : List SectionOp, (sectionBuild ops).fields.length ≤ 10)
    ∧ (∀ ops : List EmbedOp,
      (embedBuild ops).fields.length = (ops.filter EmbedOp.isAddField).length) := by
  refine ⟨fun ops => ?_, fun ops => ?_, fun ops => ?_, fun ops => ?_,
    fun ops => ?_, fun ops => ?_⟩
  · exact slack_foldl_blocks_le ops _ (by simp)
  · have hb : (slackBuild ops).blocks.length ≤ 50 :=
      slack_foldl_blocks_le ops _ (by simp)
    have hn : mget (slackBuild ops).options "blocks" = none :=
      slack_foldl_options_blocks ops _ rfl
    unfold SlackOptions.toMapSt
    by_cases hemp : (slackBuild ops).blocks.isEmpty
    · simp [hemp, hn, lenOfListMap]
    · simp [hemp, mget_mset_self, lenOfListMap]
      exact hb
  · exact discord_foldl_embeds_le ops _ (by simp)
  · have hb : (discordBuild ops).embeds.length ≤ 10 :=
      discord_foldl_embeds_le ops _ (by simp)
    have hn : mget (discordBuild ops).options "embeds" = none :=
      discord_foldl_options_embeds ops _ rfl
    unfold DiscordOptions.toMapSt
    by_cases hemp : (discordBuild ops).embeds.isEmpty
    · simp [hemp, hn, lenOfListMap]
    · simp [hemp, mget_mset_self, lenOfListMap]
      exact hb
  · exact section_foldl_fields_le ops _ (by simp)
  · have h := embed_foldl_fields ops { options := [], fields := [] }
    simpa using h

/-- C7 (counterexample): `NewDSN` accepts `scheme://:8080` — the
authority `:8080` is non-empty, so the host check passes — yet the stored
host (the hostname without the port) is empty, violating the claimed
invariant that the descriptor's host is non-empty after a successful
parse. -/
theorem C7_counterexample :
    hostOfDSN (NewDSNModel "scheme://:8080") = some "" := by
  rfl

/-- C7 (amended): after a successful `NewDSN` parse the scheme is
non-empty and the `host[:port]` authority component of the URL is
non-empty, but the stored host — the authority stripped of its port — may
be empty; `NewDSN` fails on every input whose parsed scheme or authority
is empty. -/
theorem C7_dsn_invariant :
    (∀ (s : String) (d : DSNModel) (u : URLModel),
      NewDSNModel s = .ok d → parseURLModel s = .ok u →
      d.scheme ≠ "" ∧ u.host ≠ "" ∧
        d.host = String.mk (splitHostPort u.host.data).1)
    ∧ (∀ (s : String) (u : URLModel), parseURLModel s = .ok u →
      u.scheme = "" ∨ u.host = "" → isErrorE (NewDSNModel s) = true) := by
  constructor
  · intro s d u h hp
    unfold NewDSNModel at h
    split at h
    · cases h
    · rename_i u2 heq
      have hu : u2 = u := Except.ok.inj (heq.symm.trans hp)
      subst hu
      split at h
      · cases h
      · rename_i h1
        split at h
        · cases h
        · rename_i h2
          split at h
          · cases h
          · cases h
            exact ⟨h1, h2, rfl⟩
  · intro s u hp hdisj
    by_cases h1 : u.scheme = ""
    · have he : NewDSNModel s = .error "DSN must contain a scheme" := by
        unfold NewDSNModel
        rw [hp]
        exact if_pos h1
      rw [he]
      rfl
    · have h2 : u.host = "" := hdisj.resolve_left h1
      have he : NewDSNModel s =
          .error "DSN must contain a host (use 'default' by default)" := by
        unfold NewDSNModel
        rw [hp]
        exact (if_neg h1).trans (if_pos h2)
      rw [he]
      rfl

/-- C7 (witness): `slack://xoxb@default` parses with scheme `slack` and
authority `default`, and `http://` (empty authority) is rejected. -/
theorem C7_dsn_witness :
    (dsnW.scheme ≠ "" ∧ urlW2.host ≠ "" ∧
      dsnW.host = String.mk (splitHostPort urlW2.host.data).1) ∧
    isErrorE (NewDSNModel "http://") = true := by
  constructor
  · exact C7_dsn_invariant.1 "slack://xoxb@default" dsnW urlW2 (by rfl) (by rfl)
  · exact C7_dsn_invariant.2 "http://" urlW (by rfl) (Or.inr rfl)

/-- C10 (confirmed): `ToMap` returns the builder's map by reference, so
`Send` mutates the message's attached options in place: after a Slack send
the message's Slack options contain the added `channel` and `text`
entries; after a Telegram send they contain the added `chat_id` and
`parse_mode` entries with `recipient_id` deleted; and for a concrete
message the `ToMap` result after `Send` (two entries) differs from the
result before (empty). -/
theorem C10_options_mutation :
    (∀ (t : SlackTransport) (subj tname : String) (om : GoMap) (bl : List GoMap),
      ∃ o2 : SlackOptions,
        ((slackSendState t (mkSlackMsg subj tname om bl)).msg).getOptions
            "slack" = some (.slack o2) ∧
        mhas o2.options "channel" = true ∧
        getStr (mget o2.options "text") = some subj)
    ∧ (∀ (t : TelegramTransport) (subj tname : String) (om : GoMap)
        (up : List (String × String)),
      ∃ o2 : TelegramOptions,
        ((telegramSendState t (mkTelegramMsg subj tname om up)).msg).getOptions
            "telegram" = some (.telegram o2) ∧
        mhas o2.options "chat_id" = true ∧
        mhas o2.options "parse_mode" = true ∧
        mhas o2.options "recipient_id" = false)
    ∧ ((c10Opts.toMapSt).1.length = 0 ∧ c10After.length = 2) := by
  refine ⟨fun t subj tname om bl => ?_, fun t subj tname om up => ?_, rfl, rfl⟩
  · refine ⟨_, rfl, ?_, ?_⟩
    · rw [mhas, mget_mset_ne _ _ _ _ (by decide), mget_mset_self]
      rfl
    · rw [mget_mset_self]
      rfl
  · refine ⟨⟨(telegramSendState t (mkTelegramMsg subj tname om up)).assembled,
      ((TelegramOptions.mk om up).toMapSt).2.upload⟩, ?_, ?_, ?_, ?_⟩
    · rw [telegram_msg_eq_remsg]
      rfl
    · rw [mhas, telegram_assembled_chatID]
      rfl
    · exact telegram_assembled_parseMode _ _
    · exact telegram_assembled_recipient _ _

end GoNotifier
